import Mathlib

/-!
Verification of the Flowise Make.com MCP tool node
(`packages/components/nodes/tools/MCP/sseCore.ts` and the `MakeTool` node /
`MakeApi` credential files) against its natural-language specification.

The TypeScript code is shallowly embedded: JSON values become an inductive
type, zod schemas become a small inductive validator model, JS exceptions
become `Except String`, and the network (SSE transport, `tools/list`,
`tools/call`) becomes an explicit `Network` record of functions.
-/

namespace Flowise

/-- A JSON-like JavaScript value. `null` also stands for `undefined`;
numbers are modelled as integers (no claim depends on float behaviour). -/
inductive JsonVal where
  | null
  | bool (b : Bool)
  | num (n : Int)
  | str (s : String)
  | arr (elems : List JsonVal)
  | obj (fields : List (String × JsonVal))

/-- JavaScript truthiness of a value (`!v` is `!jsTruthy v`). -/
def jsTruthy : JsonVal → Bool
  | .null => false
  | .bool b => b
  | .num n => n != 0
  | .str s => !s.isEmpty
  | .arr _ => true
  | .obj _ => true

/-- First-match field lookup in an object field list. -/
def lookupField (k : String) : List (String × JsonVal) → Option JsonVal
  | [] => none
  | kv :: rest => if kv.1 == k then some kv.2 else lookupField k rest

/-- JS property access `v.k`: `none` models `undefined`. -/
def getField (j : JsonVal) (k : String) : Option JsonVal :=
  match j with
  | .obj kvs => lookupField k kvs
  | _ => none

/-- `typeof v === 'object'` (true for objects, arrays and `null`). -/
def typeofIsObject : JsonVal → Bool
  | .null => true
  | .arr _ => true
  | .obj _ => true
  | _ => false

/-- `Object.entries(v)` for the values reachable here: object fields,
array index/value pairs, string index/character pairs, else empty. -/
def jsEntries : JsonVal → List (String × JsonVal)
  | .obj kvs => kvs
  | .arr xs => (xs.enum).map fun p => (toString p.1, p.2)
  | .str s => (s.toList.enum).map fun p => (toString p.1, .str p.2.toString)
  | _ => []

/-! ### Model of the zod schemas produced by `createSchemaModel` -/

/-- The zod types `createSchemaModel` can build for a single property. -/
inductive ZodType where
  | zString
  | zNumber
  | zBoolean
  | zInteger
  | zAny
  | zOptional (t : ZodType)
  | zDescribed (t : ZodType) (desc : JsonVal)

/-- An object schema: the declared fields, and whether unknown keys pass
through (`z.object(...)` versus `z.object({}).passthrough()`). Both modes
accept unknown keys; the flag only records the structural difference. -/
structure ZodObject where
  fields : List (String × ZodType)
  passthru : Bool

/-- Does a zod type accept a present JSON value? -/
def zodTypeAccepts : ZodType → JsonVal → Bool
  | .zString, .str _ => true
  | .zString, _ => false
  | .zNumber, .num _ => true
  | .zNumber, _ => false
  | .zBoolean, .bool _ => true
  | .zBoolean, _ => false
  | .zInteger, .num _ => true
  | .zInteger, _ => false
  | .zAny, _ => true
  | .zOptional t, v => zodTypeAccepts t v
  | .zDescribed t _, v => zodTypeAccepts t v

/-- Does a zod field accept the key being absent from the input?
An `.optional()` wrapper does, and so does `z.any()`: zod parses a
missing key as `undefined`, which `z.any()` accepts even without
`.optional()`. -/
def zodAcceptsMissing : ZodType → Bool
  | .zOptional _ => true
  | .zAny => true
  | .zDescribed t _ => zodAcceptsMissing t
  | _ => false

/-- Validation of an input value against an object schema: the input must
be an object, and every declared field must either be present with an
accepted value or be allowed to be missing. Unknown keys never reject
(zod default strip mode / passthrough). -/
def ZodObject.parseOk (z : ZodObject) (input : JsonVal) : Bool :=
  match input with
  | .obj kvs =>
      z.fields.all fun kt =>
        match lookupField kt.1 kvs with
        | some v => zodTypeAccepts kt.2 v
        | none => zodAcceptsMissing kt.2
  | _ => false

/-! ### `createSchemaModel` (sseCore.ts lines 147-196) -/

/-- The guard `!inputSchema || typeof inputSchema !== 'object' ||
inputSchema.type !== 'object' || !inputSchema.properties`: the schema is
usable iff it is truthy, of object typeof, has `type: 'object'` and a
truthy `properties` value. -/
def schemaGuardOk (inputSchema : JsonVal) : Bool :=
  jsTruthy inputSchema && typeofIsObject inputSchema &&
    (match getField inputSchema "type" with
     | some (.str s) => s == "object"
     | _ => false) &&
    (match getField inputSchema "properties" with
     | some p => jsTruthy p
     | none => false)

/-- The `switch (propSchema?.type)` mapping to a base zod type, with
`z.any()` as the fallback for unknown or missing types. -/
def baseZodType (propSchema : JsonVal) : ZodType :=
  match getField propSchema "type" with
  | some (.str "string") => .zString
  | some (.str "number") => .zNumber
  | some (.str "boolean") => .zBoolean
  | some (.str "integer") => .zInteger
  | _ => .zAny

/-- Does the property schema declare one of the four types the `switch`
recognizes? Anything else falls through to the `z.any()` fallback. -/
def recognizedType (propSchema : JsonVal) : Bool :=
  match getField propSchema "type" with
  | some (.str "string") => true
  | some (.str "number") => true
  | some (.str "boolean") => true
  | some (.str "integer") => true
  | _ => false

/-- `Array.isArray(inputSchema.required) && inputSchema.required.includes(key)`. -/
def isRequiredKey (inputSchema : JsonVal) (key : String) : Bool :=
  match getField inputSchema "required" with
  | some (.arr xs) =>
      xs.any fun v =>
        match v with
        | .str s => s == key
        | _ => false
  | _ => false

/-- One step of the `reduce`: map the property type, wrap in `.optional()`
unless the key is listed in `required`, and attach `.describe(...)` when a
truthy description is present. -/
def convertProp (inputSchema : JsonVal) (key : String) (propSchema : JsonVal) : ZodType :=
  let base := baseZodType propSchema
  let withOpt := if isRequiredKey inputSchema key then base else .zOptional base
  match getField propSchema "description" with
  | some d => if jsTruthy d then .zDescribed withOpt d else withOpt
  | none => withOpt

/-- The body of the `try` block: `Object.entries(inputSchema.properties)`
reduced to a field list. Over plain JSON data this conversion never
throws; the `Except` return type records where a JS exception would
propagate to the `catch`. -/
def convertProperties (inputSchema : JsonVal) : Except String (List (String × ZodType)) :=
  .ok ((jsEntries ((getField inputSchema "properties").getD .null)).map
    fun kp => (kp.1, convertProp inputSchema kp.1 kp.2))

/-- The `try`/`catch` around the conversion: a successful conversion gives
`z.object(schemaProperties)`; the `catch` falls back to the permissive
`z.object({}).passthrough()`. -/
def tryCatchZod : Except String (List (String × ZodType)) → ZodObject
  | .ok fs => { fields := fs, passthru := false }
  | .error _ => { fields := [], passthru := true }

/-- `createSchemaModel`: an invalid or property-less input schema yields
the empty object schema `z.object({})`; otherwise the properties are
converted, with the catch-path fallback. -/
def createSchemaModel (inputSchema : JsonVal) : ZodObject :=
  if schemaGuardOk inputSchema then
    tryCatchZod (convertProperties inputSchema)
  else
    { fields := [], passthru := false }

/-! ### Remote protocol model: content parts, tool descriptors, network -/

/-- One content part of a `tools/call` response: a `type` tag and the
`text` payload (meaningful only when the tag is `"text"`). -/
structure ContentPart where
  ptype : String
  text : String
deriving DecidableEq, Repr

/-- A remote tool descriptor from `tools/list`: name, optional
description, and the JSON-Schema-like input schema. -/
structure RawTool where
  name : String
  description : Option String
  inputSchema : JsonVal

/-- The remote server as seen through the SDK, keyed by connection URL:
connecting the transport, the `tools/list` request, and the `tools/call`
request. `Except.error` models a rejected promise / thrown error. -/
structure Network where
  connect : String → Except String Unit
  listTools : String → Except String (List RawTool)
  callTool : String → String → JsonVal → Except String (List ContentPart)

/-! ### Langchain-side model -/

/-- The MCP SDK `Client` as constructed in `initialize()`. -/
structure Client where
  clientName : String
  clientVersion : String

/-- The `SSEClientTransport`, holding the URL it was constructed with. -/
structure Transport where
  url : String

/-- Connection parameters (`sseParams`); headers are unused by the code. -/
structure SSEParams where
  url : String

/-- The static data of a `DynamicStructuredTool` produced by
`MCPToolSSE`: name, description and the converted args schema. Its
runtime behaviour is `MCPToolSSE_func` below. -/
structure DynamicStructuredTool where
  name : String
  description : String
  schema : ZodObject

/-- The tool function built by `MCPToolSSE`: issue `tools/call`, join the
`text`-typed parts of the response with newlines (placeholder when that
join is falsy), and turn any error into a normal string result. The
outer `Except` records whether the async function itself rejects. -/
def MCPToolSSE_func (net : Network) (url toolName : String) (input : JsonVal) :
    Except String String :=
  match net.callTool url toolName input with
  | .ok content =>
      let responseText :=
        String.intercalate "\n"
          ((content.filter fun p => p.ptype == "text").map fun p => p.text)
      .ok (if responseText.isEmpty then "[No text content returned]" else responseText)
  | .error e => .ok ("Error executing tool " ++ toolName ++ ": " ++ e)

/-- `mcpTool.description || 'Invoke <name> via MCP'` (JS falsy default). -/
def toolDescription (r : RawTool) : String :=
  match r.description with
  | some s => if s.isEmpty then "Invoke " ++ r.name ++ " via MCP" else s
  | none => "Invoke " ++ r.name ++ " via MCP"

/-- The per-descriptor mapping performed inside `get_tools()`:
`MCPToolSSE` with the descriptor's name, defaulted description, and
`createSchemaModel` of its input schema. -/
def mkToolFromDescriptor (r : RawTool) : DynamicStructuredTool :=
  { name := r.name
    description := toolDescription r
    schema := createSchemaModel r.inputSchema }

/-! ### `SSEMCPToolkit` (sseCore.ts lines 10-95) -/

/-- The toolkit's mutable fields. `rawTools` embeds `_rawTools`. -/
structure SSEMCPToolkit where
  tools : List DynamicStructuredTool
  rawTools : Option (List RawTool)
  client : Option Client
  transport : Option Transport
  sseParams : SSEParams

/-- The constructor: reject a falsy URL, store the params, and build the
transport from the URL. -/
def SSEMCPToolkit.mkToolkit (params : SSEParams) : Except String SSEMCPToolkit :=
  if params.url.isEmpty then
    .error "SSEConnectionParameters with a valid URL are required."
  else
    .ok { tools := []
          rawTools := none
          client := none
          transport := some { url := params.url }
          sseParams := params }

/-- `get_tools()`: demand a fetched catalog and a client, then map every
raw descriptor through `MCPToolSSE`/`createSchemaModel`. -/
def SSEMCPToolkit.get_tools (tk : SSEMCPToolkit) : Except String (List DynamicStructuredTool) :=
  match tk.rawTools, tk.client with
  | some raw, some _ => .ok (raw.map mkToolFromDescriptor)
  | _, _ => .error "Toolkit not initialized. Call initialize() first."

/-- The state all four fields take in the `catch` block of `initialize()`. -/
def SSEMCPToolkit.resetOnFailure (tk : SSEMCPToolkit) : SSEMCPToolkit :=
  { tk with client := none, transport := none, rawTools := none, tools := [] }

/-- The error thrown by the `catch` block of `initialize()`. -/
def initFailureMsg (url msg : String) : String :=
  "Failed to connect or list tools from MCP server at " ++ url ++ ": " ++ msg

/-- `initialize()`, modelled as a state transformer returning the updated
instance together with the call's outcome (an exception leaves the
instance in whatever state the method mutated it to). A second call on an
already-fetched instance is a no-op; otherwise a fresh client is stored,
a missing transport throws without any reset, and the try block connects,
fetches `tools/list` and populates `tools` via `get_tools()`, with the
catch block clearing all four fields and rethrowing a descriptive error. -/
def SSEMCPToolkit.initMethod (net : Network) (tk : SSEMCPToolkit) :
    SSEMCPToolkit × Except String Unit :=
  match tk.rawTools with
  | some _ => (tk, .ok ())
  | none =>
    let tk1 := { tk with client := some { clientName := "flowise-sse-client", clientVersion := "1.0.0" } }
    match tk1.transport with
    | none => (tk1, .error "SSE Transport is not initialized.")
    | some tr =>
      match net.connect tr.url with
      | .error e => (tk1.resetOnFailure, .error (initFailureMsg tk1.sseParams.url e))
      | .ok _ =>
        match net.listTools tr.url with
        | .error e => (tk1.resetOnFailure, .error (initFailureMsg tk1.sseParams.url e))
        | .ok raw =>
          let tk2 := { tk1 with rawTools := some raw }
          match tk2.get_tools with
          | .ok ts => ({ tk2 with tools := ts }, .ok ())
          | .error e => (tk2.resetOnFailure, .error (initFailureMsg tk2.sseParams.url e))

/-! ### Sorting model for `Array.prototype.sort` with a comparator -/

/-- Insert into a sorted list, keeping earlier elements first on ties
(stable, like the JS engines' sort). -/
def orderedInsertBy {α : Type} (le : α → α → Bool) (a : α) : List α → List α
  | [] => [a]
  | b :: l => if le a b then a :: b :: l else b :: orderedInsertBy le a l

/-- A stable comparator sort modelling `Array.prototype.sort`. -/
def insertionSortBy {α : Type} (le : α → α → Bool) : List α → List α
  | [] => []
  | b :: l => orderedInsertBy le b (insertionSortBy le l)

/-! ### `MakeTool` node (unnamed source file, `MakeTool` class) -/

/-- One `INodeOptionsValue` dropdown entry. -/
structure NodeOption where
  label : String
  name : String
  description : String
deriving DecidableEq, Repr

/-- The credential record returned by `getCredentialData`; each field may
be absent. -/
structure CredData where
  makeZone : Option String
  mcpToken : Option String

/-- JS truthiness of an optionally-present string field
(`credentialData?.makeZone` is falsy when absent or empty). -/
def optTruthy : Option String → Bool
  | some s => !s.isEmpty
  | none => false

/-- The SSE URL template
`https://<zone>/mcp/api/v1/u/<token>/sse`. -/
def makeSseUrl (zone token : String) : String :=
  "https://" ++ zone ++ "/mcp/api/v1/u/" ++ token ++ "/sse"

/-- The sentinel option returned when credentials are missing. -/
def noCredOption : NodeOption :=
  { label := "Configure Make.com Credentials First"
    name := "NO_CRED"
    description := "Credential details missing." }

/-- The sentinel option returned for an empty catalog. -/
def noScenariosOption : NodeOption :=
  { label := "No Scenarios Found"
    name := "NO_SCENARIOS"
    description := "Check Make.com MCP server or token." }

/-- The sentinel option produced by the discovery catch block, carrying
the first 100 characters of the error message. -/
def loadErrorOption (msg : String) : NodeOption :=
  { label := "Error Loading Scenarios"
    name := "LOAD_ERROR"
    description := msg.take 100 }

/-- The dropdown entry built from one materialized tool:
`label = name`, `description = tool.description || tool.name`. -/
def scenarioOptionOfTool (t : DynamicStructuredTool) : NodeOption :=
  { label := t.name
    name := t.name
    description := if t.description.isEmpty then t.name else t.description }

/-- `listMakeScenarios`, parametrized by the environment's
`localeCompare` (`lc`), the network, and the credential record (possibly
`undefined`). Missing credentials short-circuit to the `NO_CRED`
sentinel; the try block builds a fresh toolkit, initializes it, returns
the `NO_SCENARIOS` sentinel for an empty catalog, and otherwise the
name/description pairs sorted by `label.localeCompare`; any thrown error
becomes the single `LOAD_ERROR` sentinel. -/
def listMakeScenarios (lc : String → String → Ordering) (net : Network)
    (cred : Option CredData) : List NodeOption :=
  let zone := cred.bind CredData.makeZone
  let token := cred.bind CredData.mcpToken
  if !(optTruthy zone) || !(optTruthy token) then [noCredOption]
  else
    let url := makeSseUrl (zone.getD "") (token.getD "")
    match SSEMCPToolkit.mkToolkit { url := url } with
    | .error e => [loadErrorOption e]
    | .ok tk =>
      match tk.initMethod net with
      | (_, .error e) => [loadErrorOption e]
      | (tk1, .ok _) =>
        if tk1.tools.isEmpty then [noScenariosOption]
        else
          insertionSortBy (fun a b => (lc a.label b.label) != Ordering.gt)
            (tk1.tools.map scenarioOptionOfTool)

/-- `MakeTool.init`: throw on missing credentials, return `[]` when no
actions are selected, and otherwise build and initialize a fresh toolkit
and filter its tools to the selected names, wrapping any thrown error. -/
def MakeTool.init (net : Network) (cred : Option CredData)
    (selectedActions : List String) : Except String (List DynamicStructuredTool) :=
  let zone := cred.bind CredData.makeZone
  let token := cred.bind CredData.mcpToken
  if !(optTruthy zone) || !(optTruthy token) then
    .error "Make.com credentials are not configured for this node."
  else
    if selectedActions.isEmpty then .ok []
    else
      let url := makeSseUrl (zone.getD "") (token.getD "")
      match SSEMCPToolkit.mkToolkit { url := url } with
      | .error e => .error ("Failed to initialize MakeTool: " ++ e)
      | .ok tk =>
        match tk.initMethod net with
        | (_, .error e) => .error ("Failed to initialize MakeTool: " ++ e)
        | (tk1, .ok _) =>
            .ok (tk1.tools.filter fun t => selectedActions.contains t.name)

/-! ### Lemmas about the sorting model -/

theorem perm_orderedInsertBy {α : Type} (le : α → α → Bool) (a : α) :
    ∀ l : List α, List.Perm (orderedInsertBy le a l) (a :: l)
  | [] => List.Perm.refl _
  | b :: l => by
      simp only [orderedInsertBy]
      split
      · exact List.Perm.refl _
      · exact ((perm_orderedInsertBy le a l).cons b).trans (List.Perm.swap a b l)

theorem perm_insertionSortBy {α : Type} (le : α → α → Bool) :
    ∀ l : List α, List.Perm (insertionSortBy le l) l
  | [] => List.Perm.refl _
  | b :: l =>
      (perm_orderedInsertBy le b (insertionSortBy le l)).trans
        ((perm_insertionSortBy le l).cons b)

theorem length_insertionSortBy {α : Type} (le : α → α → Bool) (l : List α) :
    (insertionSortBy le l).length = l.length :=
  (perm_insertionSortBy le l).length_eq

theorem pairwise_orderedInsertBy {α : Type} {le : α → α → Bool}
    (htot : ∀ a b, le a b = true ∨ le b a = true)
    (htrans : ∀ a b c, le a b = true → le b c = true → le a c = true)
    (a : α) :
    ∀ l : List α, List.Pairwise (fun x y => le x y = true) l →
      List.Pairwise (fun x y => le x y = true) (orderedInsertBy le a l)
  | [], _ => List.pairwise_singleton _ a
  | b :: l, h => by
      rcases List.pairwise_cons.mp h with ⟨hb, hl⟩
      simp only [orderedInsertBy]
      split
      · rename_i hab
        refine List.pairwise_cons.mpr ⟨?_, h⟩
        intro x hx
        rcases List.mem_cons.mp hx with rfl | hxl
        · exact hab
        · exact htrans a b x hab (hb x hxl)
      · rename_i hab
        refine List.pairwise_cons.mpr ⟨?_, pairwise_orderedInsertBy htot htrans a l hl⟩
        intro x hx
        rcases List.mem_cons.mp ((perm_orderedInsertBy le a l).mem_iff.mp hx) with rfl | hxl
        · rcases htot x b with hxb | hbx
          · exact absurd hxb (by simpa using hab)
          · exact hbx
        · exact hb x hxl

theorem pairwise_insertionSortBy {α : Type} {le : α → α → Bool}
    (htot : ∀ a b, le a b = true ∨ le b a = true)
    (htrans : ∀ a b c, le a b = true → le b c = true → le a c = true) :
    ∀ l : List α, List.Pairwise (fun x y => le x y = true) (insertionSortBy le l)
  | [] => List.Pairwise.nil
  | b :: l =>
      pairwise_orderedInsertBy htot htrans b (insertionSortBy le l)
        (pairwise_insertionSortBy htot htrans l)

/-! ### Helper lemmas about the embedded operations -/

theorem makeSseUrl_isEmpty_false (z t : String) : (makeSseUrl z t).isEmpty = false := by
  rw [Bool.eq_false_iff]
  intro h
  have h2 := (String.isEmpty_iff _).mp h
  have hd := congrArg String.data h2
  simp only [makeSseUrl, String.append, String.data] at hd
  simp at hd

theorem mkToolkit_ok (url : String) (h : url.isEmpty = false) :
    SSEMCPToolkit.mkToolkit { url := url } =
      .ok { tools := [], rawTools := none, client := none,
            transport := some { url := url }, sseParams := { url := url } } := by
  simp [SSEMCPToolkit.mkToolkit, h]

/-- A fresh toolkit whose connection and `tools/list` succeed ends up with
the catalog cached and `tools` populated by the descriptor mapping. -/
theorem initMethod_fresh_success (net : Network) (url : String) (ts : List RawTool)
    (hc : net.connect url = .ok ()) (hl : net.listTools url = .ok ts) :
    SSEMCPToolkit.initMethod net
      { tools := [], rawTools := none, client := none,
        transport := some { url := url }, sseParams := { url := url } } =
      ({ tools := ts.map mkToolFromDescriptor, rawTools := some ts,
         client := some { clientName := "flowise-sse-client", clientVersion := "1.0.0" },
         transport := some { url := url }, sseParams := { url := url } }, .ok ()) := by
  simp [SSEMCPToolkit.initMethod, hc, hl, SSEMCPToolkit.get_tools]

/-- Full case analysis of `initialize()` on an arbitrary instance. -/
theorem initMethod_eq (net : Network) (tools : List DynamicStructuredTool)
    (rawTools : Option (List RawTool)) (client : Option Client)
    (transport : Option Transport) (params : SSEParams) :
    SSEMCPToolkit.initMethod net ⟨tools, rawTools, client, transport, params⟩ =
      match rawTools with
      | some raw => (⟨tools, some raw, client, transport, params⟩, .ok ())
      | none =>
        match transport with
        | none =>
            (⟨tools, none, some ⟨"flowise-sse-client", "1.0.0"⟩, none, params⟩,
             .error "SSE Transport is not initialized.")
        | some tr =>
          match net.connect tr.url with
          | .error e => (⟨[], none, none, none, params⟩, .error (initFailureMsg params.url e))
          | .ok _ =>
            match net.listTools tr.url with
            | .error e => (⟨[], none, none, none, params⟩, .error (initFailureMsg params.url e))
            | .ok raw =>
                (⟨raw.map mkToolFromDescriptor, some raw,
                  some ⟨"flowise-sse-client", "1.0.0"⟩, some tr, params⟩, .ok ()) := by
  cases rawTools with
  | some raw => rfl
  | none =>
    cases transport with
    | none => rfl
    | some tr =>
      cases hc : net.connect tr.url with
      | error e => simp [SSEMCPToolkit.initMethod, hc, SSEMCPToolkit.resetOnFailure]
      | ok u =>
        cases hl : net.listTools tr.url with
        | error e => simp [SSEMCPToolkit.initMethod, hc, hl, SSEMCPToolkit.resetOnFailure]
        | ok raw =>
            simp [SSEMCPToolkit.initMethod, hc, hl, SSEMCPToolkit.get_tools,
              SSEMCPToolkit.resetOnFailure]

/-! ### Concrete fixtures used by counterexamples and witnesses -/

/-- A remote descriptor named `alpha` with a string/number schema. -/
def rawAlpha : RawTool :=
  { name := "alpha"
    description := some "first scenario"
    inputSchema := .obj [("type", .str "object"),
                         ("properties", .obj [("a", .obj [("type", .str "string")])]),
                         ("required", .arr [.str "a"])] }

/-- A remote descriptor named `beta` with no description and no schema. -/
def rawBeta : RawTool :=
  { name := "beta"
    description := none
    inputSchema := .null }

/-- A server where the SSE connection itself is refused. -/
def netDown : Network :=
  { connect := fun _ => .error "connect ECONNREFUSED"
    listTools := fun _ => .error "transport closed"
    callTool := fun _ _ _ => .error "transport closed" }

/-- A healthy server exposing `alpha` and `beta`. -/
def netUp : Network :=
  { connect := fun _ => .ok ()
    listTools := fun _ => .ok [rawAlpha, rawBeta]
    callTool := fun _ _ _ => .ok [{ ptype := "text", text := "done" }] }

/-- A healthy server whose catalog is empty. -/
def netEmptyCatalog : Network :=
  { connect := fun _ => .ok ()
    listTools := fun _ => .ok []
    callTool := fun _ _ _ => .error "no such tool" }

/-- A degenerate but consistent locale comparison (everything ties). -/
def lcConst : String → String → Ordering := fun _ _ => Ordering.eq

/-- A fully populated credential record. -/
def credUS : CredData := { makeZone := some "us1", mcpToken := some "tok" }

/-- The URL `credUS` resolves to. -/
def urlUS : String := makeSseUrl "us1" "tok"

/-- A freshly constructed toolkit on `urlUS`, as `mkToolkit` returns it. -/
def tkFresh : SSEMCPToolkit :=
  { tools := [], rawTools := none, client := none,
    transport := some { url := urlUS }, sseParams := { url := urlUS } }

theorem filter_text_map_eq_filterMap (content : List ContentPart) :
    (content.filter fun p => p.ptype == "text").map (fun p => p.text)
      = content.filterMap fun p => if p.ptype = "text" then some p.text else none := by
  induction content with
  | nil => rfl
  | cons a l ih =>
      by_cases h : a.ptype = "text" <;>
        simp [List.filter_cons, List.filterMap_cons, h, ih]

/-- C3: for every materialized tool and invocation input, a failing
`tools/call` request does not make the tool function throw: it resolves
normally with the string `Error executing tool <name>: <message>`. -/
theorem flowise_C3_invocation_failure_returns_string :
    (∀ (net : Network) (url toolName : String) (input : JsonVal) (e : String),
      net.callTool url toolName input = .error e →
      MCPToolSSE_func net url toolName input =
        .ok ("Error executing tool " ++ toolName ++ ": " ++ e)) ∧
    (∀ (net : Network) (url toolName : String) (input : JsonVal),
      ∃ s, MCPToolSSE_func net url toolName input = .ok s) := by
  constructor
  · intro net url toolName input e h
    simp [MCPToolSSE_func, h]
  · intro net url toolName input
    unfold MCPToolSSE_func
    cases net.callTool url toolName input <;> exact ⟨_, rfl⟩

/-- Witness for C3 at the concrete unreachable server `netDown`. -/
theorem flowise_C3_witness :
    netDown.callTool urlUS "alpha" (.obj []) = .error "transport closed" ∧
    MCPToolSSE_func netDown urlUS "alpha" (.obj []) =
      .ok "Error executing tool alpha: transport closed" :=
  ⟨rfl, flowise_C3_invocation_failure_returns_string.1 netDown urlUS "alpha" (.obj [])
    "transport closed" rfl⟩

/-- C6: a successful invocation returns exactly the `text` fields of the
text-typed content parts joined by newlines, dropping non-text parts, and
the placeholder `[No text content returned]` when that join is empty (in
particular when there is no text part at all). -/
theorem flowise_C6_text_parts_joined :
    ∀ (net : Network) (url toolName : String) (input : JsonVal) (content : List ContentPart),
      net.callTool url toolName input = .ok content →
      (MCPToolSSE_func net url toolName input =
        .ok (if (String.intercalate "\n" (content.filterMap fun p =>
                  if p.ptype = "text" then some p.text else none)).isEmpty
             then "[No text content returned]"
             else String.intercalate "\n" (content.filterMap fun p =>
                  if p.ptype = "text" then some p.text else none))) ∧
      ((∀ p ∈ content, ¬ p.ptype = "text") →
        MCPToolSSE_func net url toolName input = .ok "[No text content returned]") := by
  intro net url toolName input content h
  constructor
  · simp only [MCPToolSSE_func, h, filter_text_map_eq_filterMap]
  · intro hall
    have hfil : content.filter (fun p => p.ptype == "text") = [] := by
      rw [List.filter_eq_nil_iff]
      intro p hp
      simpa using hall p hp
    simp only [MCPToolSSE_func, h, hfil, List.map_nil, String.intercalate]
    rfl

/-- Witness for C6: one text part and one image part; only the text
survives. -/
theorem flowise_C6_witness :
    netUp.callTool urlUS "alpha" (.obj []) = .ok [{ ptype := "text", text := "done" }] ∧
    MCPToolSSE_func netUp urlUS "alpha" (.obj []) = .ok "done" :=
  ⟨rfl, (flowise_C6_text_parts_joined netUp urlUS "alpha" (.obj [])
    [{ ptype := "text", text := "done" }] rfl).1⟩

/-- C8: on any toolkit instance whose catalog has not been fetched
(`_rawTools` still `null`), `get_tools()` throws the explicit
not-initialized error; a freshly constructed instance is in that state,
and so is any instance coming out of a failed `initialize()`. -/
theorem flowise_C8_get_tools_requires_init :
    (∀ tk : SSEMCPToolkit, tk.rawTools = none →
      tk.get_tools = .error "Toolkit not initialized. Call initialize() first.") ∧
    (∀ (p : SSEParams) (tk : SSEMCPToolkit),
      SSEMCPToolkit.mkToolkit p = .ok tk → tk.rawTools = none) ∧
    (∀ (net : Network) (tk tk1 : SSEMCPToolkit) (e : String),
      tk.initMethod net = (tk1, .error e) → tk1.rawTools = none) := by
  refine ⟨?_, ?_, ?_⟩
  · intro tk h
    unfold SSEMCPToolkit.get_tools
    rw [h]
  · intro p tk h
    unfold SSEMCPToolkit.mkToolkit at h
    split at h
    · exact absurd h (by simp)
    · cases h
      rfl
  · intro net tk tk1 e h
    obtain ⟨tools, rawTools, client, transport, params⟩ := tk
    rw [initMethod_eq] at h
    split at h
    · simp [Prod.ext_iff] at h
    · split at h
      · simp only [Prod.mk.injEq] at h
        rw [← h.1]
      · split at h
        · simp only [Prod.mk.injEq] at h
          rw [← h.1]
        · split at h
          · simp only [Prod.mk.injEq] at h
            rw [← h.1]
          · simp [Prod.ext_iff] at h

/-- Witness for C8 on the freshly constructed toolkit `tkFresh`. -/
theorem flowise_C8_witness :
    tkFresh.rawTools = none ∧
    tkFresh.get_tools = .error "Toolkit not initialized. Call initialize() first." :=
  ⟨rfl, flowise_C8_get_tools_requires_init.1 tkFresh rfl⟩

/-- C1 counterexample: a freshly constructed toolkit whose first
`initialize()` fails (connection refused) cannot retry: although a fresh
instance against the now-healthy server succeeds, the same instance's
second `initialize()` fails with the unrelated transport error, because
the failure path nulled the transport and nothing recreates it. -/
theorem flowise_C1_counterexample :
    SSEMCPToolkit.mkToolkit { url := urlUS } = .ok tkFresh ∧
    (tkFresh.initMethod netDown).2 =
      .error (initFailureMsg urlUS "connect ECONNREFUSED") ∧
    (tkFresh.initMethod netUp).2 = .ok () ∧
    ((tkFresh.initMethod netDown).1.initMethod netUp).2 =
      .error "SSE Transport is not initialized." :=
  ⟨rfl, rfl, rfl, rfl⟩

/-- C1 (amended): when `initialize()` fails in its try block (connect or
`tools/list` error), the instance's state is fully reset: client,
transport, raw-tool cache and tools list are all cleared. However, since
the transport is created only in the constructor, a subsequent
`initialize()` on the same instance does not retry the connection from
scratch: it fails with the distinct error `SSE Transport is not
initialized.`, leaving the transport still absent. -/
theorem flowise_C1_reset_without_retry :
    (∀ (net : Network) (tk : SSEMCPToolkit) (tr : Transport) (e : String),
      tk.rawTools = none → tk.transport = some tr →
      net.connect tr.url = .error e →
      (tk.initMethod net).1 =
        { tools := [], rawTools := none, client := none, transport := none,
          sseParams := tk.sseParams } ∧
      (tk.initMethod net).2 = .error (initFailureMsg tk.sseParams.url e)) ∧
    (∀ (net : Network) (tk : SSEMCPToolkit) (tr : Transport) (u : Unit) (e : String),
      tk.rawTools = none → tk.transport = some tr →
      net.connect tr.url = .ok u → net.listTools tr.url = .error e →
      (tk.initMethod net).1 =
        { tools := [], rawTools := none, client := none, transport := none,
          sseParams := tk.sseParams } ∧
      (tk.initMethod net).2 = .error (initFailureMsg tk.sseParams.url e)) ∧
    (∀ (net : Network) (tk : SSEMCPToolkit),
      tk.rawTools = none → tk.transport = none →
      (tk.initMethod net).2 = .error "SSE Transport is not initialized." ∧
      (tk.initMethod net).1.transport = none) := by
  refine ⟨?_, ?_, ?_⟩
  · intro net tk tr e h1 h2 hc
    obtain ⟨tools, rawTools, client, transport, params⟩ := tk
    dsimp only at h1 h2 ⊢
    subst h1 h2
    rw [initMethod_eq]
    simp [hc]
  · intro net tk tr u e h1 h2 hc hl
    obtain ⟨tools, rawTools, client, transport, params⟩ := tk
    dsimp only at h1 h2 ⊢
    subst h1 h2
    rw [initMethod_eq]
    simp [hc, hl]
  · intro net tk h1 h2
    obtain ⟨tools, rawTools, client, transport, params⟩ := tk
    dsimp only at h1 h2 ⊢
    subst h1 h2
    rw [initMethod_eq]
    exact ⟨rfl, rfl⟩

/-- Witness for the amended C1 at the concrete refused connection. -/
theorem flowise_C1_witness :
    netDown.connect urlUS = .error "connect ECONNREFUSED" ∧
    (tkFresh.initMethod netDown).1 =
      { tools := [], rawTools := none, client := none, transport := none,
        sseParams := { url := urlUS } } :=
  ⟨rfl, (flowise_C1_reset_without_retry.1 netDown tkFresh { url := urlUS }
    "connect ECONNREFUSED" rfl rfl rfl).1⟩

/-- Case analysis of the discovery callback once both credential fields
are truthy. -/
theorem listScenarios_eq (lc : String → String → Ordering) (net : Network)
    (zone token : String) (hz : zone.isEmpty = false) (ht : token.isEmpty = false) :
    listMakeScenarios lc net (some { makeZone := some zone, mcpToken := some token }) =
      (match net.connect (makeSseUrl zone token) with
      | .error e => [loadErrorOption (initFailureMsg (makeSseUrl zone token) e)]
      | .ok _ =>
        match net.listTools (makeSseUrl zone token) with
        | .error e => [loadErrorOption (initFailureMsg (makeSseUrl zone token) e)]
        | .ok ts =>
          if (ts.map mkToolFromDescriptor).isEmpty then [noScenariosOption]
          else
            insertionSortBy (fun a b => lc a.label b.label != Ordering.gt)
              ((ts.map mkToolFromDescriptor).map scenarioOptionOfTool)) := by
  cases hc : net.connect (makeSseUrl zone token) with
  | error e =>
      simp [listMakeScenarios, optTruthy, hz, ht,
        mkToolkit_ok _ (makeSseUrl_isEmpty_false zone token), initMethod_eq, hc]
  | ok u =>
      cases hl : net.listTools (makeSseUrl zone token) with
      | error e =>
          simp [listMakeScenarios, optTruthy, hz, ht,
            mkToolkit_ok _ (makeSseUrl_isEmpty_false zone token), initMethod_eq, hc, hl]
      | ok ts =>
          simp [listMakeScenarios, optTruthy, hz, ht,
            mkToolkit_ok _ (makeSseUrl_isEmpty_false zone token), initMethod_eq, hc, hl]

/-- Case analysis of the materializer once both credential fields are
truthy and a non-empty selection exists. -/
theorem makeInit_eq (net : Network) (zone token : String) (sel : List String)
    (hz : zone.isEmpty = false) (ht : token.isEmpty = false)
    (hsel : sel.isEmpty = false) :
    MakeTool.init net (some { makeZone := some zone, mcpToken := some token }) sel =
      (match net.connect (makeSseUrl zone token) with
      | .error e =>
          .error ("Failed to initialize MakeTool: " ++ initFailureMsg (makeSseUrl zone token) e)
      | .ok _ =>
        match net.listTools (makeSseUrl zone token) with
        | .error e =>
            .error ("Failed to initialize MakeTool: " ++ initFailureMsg (makeSseUrl zone token) e)
        | .ok raw =>
            .ok ((raw.map mkToolFromDescriptor).filter fun t => sel.contains t.name)) := by
  cases hc : net.connect (makeSseUrl zone token) with
  | error e =>
      simp [MakeTool.init, optTruthy, hz, ht, hsel,
        mkToolkit_ok _ (makeSseUrl_isEmpty_false zone token), initMethod_eq, hc]
  | ok u =>
      cases hl : net.listTools (makeSseUrl zone token) with
      | error e =>
          simp [MakeTool.init, optTruthy, hz, ht, hsel,
            mkToolkit_ok _ (makeSseUrl_isEmpty_false zone token), initMethod_eq, hc, hl]
      | ok raw =>
          simp [MakeTool.init, optTruthy, hz, ht, hsel,
            mkToolkit_ok _ (makeSseUrl_isEmpty_false zone token), initMethod_eq, hc, hl]

/-- C2 counterexample: for a successfully fetched catalog of N = 0 tools
with valid credentials, the discovery callback does not return N = 0
options: it returns the single `NO_SCENARIOS` sentinel. -/
theorem flowise_C2_counterexample :
    netEmptyCatalog.listTools urlUS = .ok [] ∧
    listMakeScenarios lcConst netEmptyCatalog (some credUS) = [noScenariosOption] ∧
    [noScenariosOption].length ≠ ([] : List RawTool).length :=
  ⟨rfl, rfl, by decide⟩

/-- C2 (amended): for every remote catalog of N ≥ 1 tools with unique
names fetched successfully with valid credentials, the discovery
callback returns exactly N options, one name/description pair per
discovered tool, sorted ascending by name under the environment's locale
compare (assumed total and transitive); a catalog of N = 0 tools instead
yields the single `NO_SCENARIOS` sentinel. -/
theorem flowise_C2_sorted_catalog_options (lc : String → String → Ordering)
    (net : Network) (zone token : String) (ts : List RawTool)
    (hz : zone.isEmpty = false) (ht : token.isEmpty = false)
    (hc : net.connect (makeSseUrl zone token) = .ok ())
    (hl : net.listTools (makeSseUrl zone token) = .ok ts)
    (hne : ts ≠ [])
    (hnodup : (ts.map RawTool.name).Nodup)
    (htot : ∀ a b : String, (lc a b != Ordering.gt) = true ∨ (lc b a != Ordering.gt) = true)
    (htrans : ∀ a b c : String, (lc a b != Ordering.gt) = true →
      (lc b c != Ordering.gt) = true → (lc a c != Ordering.gt) = true) :
    ∃ opts, listMakeScenarios lc net
        (some { makeZone := some zone, mcpToken := some token }) = opts ∧
      opts.length = ts.length ∧
      List.Perm opts ((ts.map mkToolFromDescriptor).map scenarioOptionOfTool) ∧
      List.Pairwise (fun a b : NodeOption => (lc a.label b.label != Ordering.gt) = true) opts := by
  have hmap : (ts.map mkToolFromDescriptor).isEmpty = false := by
    cases ts with
    | nil => exact absurd rfl hne
    | cons a l => rfl
  refine ⟨insertionSortBy (fun a b => lc a.label b.label != Ordering.gt)
    ((ts.map mkToolFromDescriptor).map scenarioOptionOfTool), ?_, ?_, ?_, ?_⟩
  · rw [listScenarios_eq lc net zone token hz ht, hc, hl]
    simp only [hmap]
    rw [if_neg (by simp)]
  · rw [length_insertionSortBy]
    simp
  · exact perm_insertionSortBy _ _
  · exact pairwise_insertionSortBy
      (fun (a b : NodeOption) => htot a.label b.label)
      (fun (a b c : NodeOption) h1 h2 => htrans a.label b.label c.label h1 h2) _

/-- Witness for the amended C2 on the two-tool catalog `netUp`. -/
theorem flowise_C2_witness :
    ([rawAlpha, rawBeta] : List RawTool) ≠ [] ∧
    ∃ opts, listMakeScenarios lcConst netUp (some credUS) = opts ∧
      opts.length = ([rawAlpha, rawBeta] : List RawTool).length ∧
      List.Perm opts (([rawAlpha, rawBeta].map mkToolFromDescriptor).map scenarioOptionOfTool) ∧
      List.Pairwise (fun a b : NodeOption => (lcConst a.label b.label != Ordering.gt) = true) opts := by
  refine ⟨by simp, ?_⟩
  exact flowise_C2_sorted_catalog_options lcConst netUp "us1" "tok" [rawAlpha, rawBeta]
    rfl rfl rfl rfl (by simp) (by decide)
    (fun a b => Or.inl rfl) (fun a b c h1 h2 => rfl)

/-- C10: with valid credentials and a successfully fetched empty catalog,
the discovery callback returns exactly the single `NO_SCENARIOS`
sentinel (label `No Scenarios Found`) rather than an empty list. -/
theorem flowise_C10_empty_catalog_sentinel (lc : String → String → Ordering)
    (net : Network) (zone token : String)
    (hz : zone.isEmpty = false) (ht : token.isEmpty = false)
    (hc : net.connect (makeSseUrl zone token) = .ok ())
    (hl : net.listTools (makeSseUrl zone token) = .ok []) :
    listMakeScenarios lc net (some { makeZone := some zone, mcpToken := some token }) =
      [{ label := "No Scenarios Found", name := "NO_SCENARIOS",
         description := "Check Make.com MCP server or token." }] := by
  rw [listScenarios_eq lc net zone token hz ht, hc, hl]
  rfl

/-- Witness for C10 on the concrete empty-catalog server. -/
theorem flowise_C10_witness :
    netEmptyCatalog.listTools (makeSseUrl "us1" "tok") = .ok [] ∧
    listMakeScenarios lcConst netEmptyCatalog (some credUS) =
      [{ label := "No Scenarios Found", name := "NO_SCENARIOS",
         description := "Check Make.com MCP server or token." }] :=
  ⟨rfl, flowise_C10_empty_catalog_sentinel lcConst netEmptyCatalog "us1" "tok"
    rfl rfl rfl rfl⟩

/-- C9: every tool the materializer hands to the workflow engine comes
from the catalog fetched in the same session: it is the 1:1 image of
some remote descriptor of that catalog, so the result is a subset of the
mapped catalog and no tool is fabricated locally. -/
theorem flowise_C9_tools_subset_of_catalog (net : Network) (zone token : String)
    (sel : List String) (ts : List DynamicStructuredTool) (raw : List RawTool)
    (hl : net.listTools (makeSseUrl zone token) = .ok raw)
    (hinit : MakeTool.init net
      (some { makeZone := some zone, mcpToken := some token }) sel = .ok ts) :
    ∀ t ∈ ts, ∃ r ∈ raw, t = mkToolFromDescriptor r := by
  by_cases hz : zone.isEmpty = false
  case neg =>
    rw [Bool.not_eq_false] at hz
    simp [MakeTool.init, optTruthy, hz] at hinit
  case pos =>
  by_cases ht : token.isEmpty = false
  case neg =>
    rw [Bool.not_eq_false] at ht
    simp [MakeTool.init, optTruthy, ht] at hinit
  case pos =>
  by_cases hsel : sel.isEmpty = false
  case neg =>
    rw [Bool.not_eq_false] at hsel
    simp [MakeTool.init, optTruthy, hz, ht, hsel] at hinit
    subst hinit
    intro t htmem
    cases htmem
  case pos =>
  rw [makeInit_eq net zone token sel hz ht hsel] at hinit
  cases hc : net.connect (makeSseUrl zone token) with
  | error e =>
      rw [hc] at hinit
      cases hinit
  | ok u =>
      rw [hc, hl] at hinit
      cases hinit
      intro t htmem
      have hmem := (List.mem_filter.mp htmem).1
      obtain ⟨r, hr, rfl⟩ := List.mem_map.mp hmem
      exact ⟨r, hr, rfl⟩

/-- Witness for C9 selecting `alpha` out of the two-tool catalog. -/
theorem flowise_C9_witness :
    MakeTool.init netUp (some credUS) ["alpha"] =
      .ok [mkToolFromDescriptor rawAlpha] ∧
    ∃ r ∈ [rawAlpha, rawBeta], mkToolFromDescriptor rawAlpha = mkToolFromDescriptor r := by
  refine ⟨rfl, ?_⟩
  have h := flowise_C9_tools_subset_of_catalog netUp "us1" "tok" ["alpha"]
    [mkToolFromDescriptor rawAlpha] [rawAlpha, rawBeta] rfl rfl
  exact h (mkToolFromDescriptor rawAlpha) (by simp)

/-- C4: for every credential record whose zone or token field is missing
(or empty), the discovery callback returns exactly the one `NO_CRED`
sentinel option without throwing, while the materializer throws. -/
theorem flowise_C4_missing_credentials (lc : String → String → Ordering)
    (net : Network) (cred : Option CredData)
    (hmiss : optTruthy (cred.bind CredData.makeZone) = false ∨
      optTruthy (cred.bind CredData.mcpToken) = false) :
    listMakeScenarios lc net cred = [noCredOption] ∧
    noCredOption.name = "NO_CRED" ∧
    (∀ sel, MakeTool.init net cred sel =
      .error "Make.com credentials are not configured for this node.") := by
  have hcond : (!optTruthy (cred.bind CredData.makeZone) ||
      !optTruthy (cred.bind CredData.mcpToken)) = true := by
    rcases hmiss with h | h <;> simp [h]
  refine ⟨?_, rfl, ?_⟩
  · rw [listMakeScenarios]
    simp only [hcond, if_true]
  · intro sel
    rw [MakeTool.init]
    simp only [hcond, if_true]

/-- Witness for C4 with an entirely absent credential record. -/
theorem flowise_C4_witness :
    optTruthy ((none : Option CredData).bind CredData.makeZone) = false ∧
    listMakeScenarios lcConst netUp none = [noCredOption] ∧
    MakeTool.init netUp none ["alpha"] =
      .error "Make.com credentials are not configured for this node." := by
  have h := flowise_C4_missing_credentials lcConst netUp none (Or.inl rfl)
  exact ⟨rfl, h.1, h.2.2 ["alpha"]⟩

/-- The claim's example schema:
`{type: 'object', properties: {a: string, b: number}, required: ['a']}`. -/
def schemaAB : JsonVal :=
  .obj [("type", .str "object"),
        ("properties", .obj [("a", .obj [("type", .str "string")]),
                             ("b", .obj [("type", .str "number")])]),
        ("required", .arr [.str "a"])]

theorem zodAcceptsMissing_base (p : JsonVal) :
    zodAcceptsMissing (baseZodType p) = !recognizedType p := by
  unfold baseZodType recognizedType
  split <;> rfl

/-- A converted property is skippable in validation when its key is not
listed in the schema's `required` array or when its declared type is not
one of the recognized primitives (the `z.any()` fallback accepts the key
being absent even without `.optional()`). -/
theorem zodAcceptsMissing_convertProp (s : JsonVal) (k : String) (p : JsonVal) :
    zodAcceptsMissing (convertProp s k p) =
      (!(isRequiredKey s k) || !(recognizedType p)) := by
  unfold convertProp
  cases hreq : isRequiredKey s k <;>
    cases hd : getField p "description" with
  | none => simp [hreq, hd, zodAcceptsMissing, zodAcceptsMissing_base]
  | some d =>
      cases htr : jsTruthy d <;>
        simp [hreq, hd, htr, zodAcceptsMissing, zodAcceptsMissing_base]

/-- A schema whose single property `c` has an unrecognized type but is
listed in `required`: the `switch` falls back to `z.any()` for it. -/
def schemaReqUnknown : JsonVal :=
  .obj [("type", .str "object"),
        ("properties", .obj [("c", .obj [("type", .str "foo")])]),
        ("required", .arr [.str "c"])]

/-- C5 counterexample: a property can appear in the schema's `required`
array without being mandatory. In `schemaReqUnknown` the key `c` is
required, but its unrecognized type maps to `z.any()`, which accepts the
key being absent, so the derived validator accepts the empty object. -/
theorem flowise_C5_counterexample :
    isRequiredKey schemaReqUnknown "c" = true ∧
    recognizedType (.obj [("type", .str "foo")]) = false ∧
    (createSchemaModel schemaReqUnknown).parseOk (.obj []) = true :=
  ⟨rfl, rfl, rfl⟩

/-- C5 (amended): the validator derived for the example schema rejects
every input omitting the required key `a` and accepts inputs that omit
the optional key `b`; in general, a converted property is mandatory
(its absence rejected) exactly when its key appears in the schema's
`required` array AND its declared type is one of the recognized
primitives — a required property of unrecognized type falls back to
`z.any()`, which accepts the key being absent. A missing mandatory
field makes validation of the whole object fail. -/
theorem flowise_C5_required_array_drives_optionality :
    (∀ kvs, lookupField "a" kvs = none →
      (createSchemaModel schemaAB).parseOk (.obj kvs) = false) ∧
    (∀ (s : String) (kvs : List (String × JsonVal)),
      lookupField "a" kvs = some (.str s) → lookupField "b" kvs = none →
      (createSchemaModel schemaAB).parseOk (.obj kvs) = true) ∧
    (∀ (schema : JsonVal) (k : String) (p : JsonVal),
      (zodAcceptsMissing (convertProp schema k p) = false ↔
        (isRequiredKey schema k = true ∧ recognizedType p = true))) ∧
    (∀ (z : ZodObject) (k : String) (t : ZodType) (kvs : List (String × JsonVal)),
      (k, t) ∈ z.fields → lookupField k kvs = none → zodAcceptsMissing t = false →
      z.parseOk (.obj kvs) = false) := by
  have hfields : (createSchemaModel schemaAB).fields =
      [("a", .zString), ("b", .zOptional .zNumber)] := rfl
  refine ⟨?_, ?_, ?_, ?_⟩
  · intro kvs h
    simp [ZodObject.parseOk, hfields, h, zodAcceptsMissing]
  · intro s kvs h1 h2
    simp [ZodObject.parseOk, hfields, h1, h2, zodAcceptsMissing, zodTypeAccepts]
  · intro schema k p
    rw [zodAcceptsMissing_convertProp]
    cases isRequiredKey schema k <;> cases recognizedType p <;> simp
  · intro z k t kvs hmem hnone hmand
    unfold ZodObject.parseOk
    rw [List.all_eq_false]
    refine ⟨(k, t), hmem, ?_⟩
    simp [hnone, hmand]

/-- Witness for C5: input `{b: 3}` omits `a` and is rejected. -/
theorem flowise_C5_witness :
    lookupField "a" [("b", JsonVal.num 3)] = none ∧
    (createSchemaModel schemaAB).parseOk (.obj [("b", JsonVal.num 3)]) = false :=
  ⟨rfl, flowise_C5_required_array_drives_optionality.1 [("b", JsonVal.num 3)] rfl⟩

/-- C7: an invalid or property-less input schema degrades to the empty
object schema, which accepts every object input; the conversion's catch
path degrades to the passthrough schema, which also accepts every object
input; and `get_tools()` on a fetched catalog always succeeds (schema
conversion never aborts the catalog mapping). -/
theorem flowise_C7_schema_conversion_degrades_permissively :
    (∀ j : JsonVal, schemaGuardOk j = false →
      createSchemaModel j = { fields := [], passthru := false } ∧
      ∀ kvs, (createSchemaModel j).parseOk (.obj kvs) = true) ∧
    (∀ e : String, tryCatchZod (.error e) = { fields := [], passthru := true } ∧
      ∀ kvs, (tryCatchZod (.error e)).parseOk (.obj kvs) = true) ∧
    (∀ (tk : SSEMCPToolkit) (raw : List RawTool) (c : Client),
      tk.rawTools = some raw → tk.client = some c →
      tk.get_tools = .ok (raw.map mkToolFromDescriptor)) := by
  refine ⟨?_, ?_, ?_⟩
  · intro j h
    have heq : createSchemaModel j = { fields := [], passthru := false } := by
      simp [createSchemaModel, h]
    exact ⟨heq, fun kvs => by simp [heq, ZodObject.parseOk]⟩
  · intro e
    exact ⟨rfl, fun kvs => by simp [tryCatchZod, ZodObject.parseOk]⟩
  · intro tk raw c h1 h2
    unfold SSEMCPToolkit.get_tools
    rw [h1, h2]

/-- Witness for C7 at the invalid schema `null`. -/
theorem flowise_C7_witness :
    schemaGuardOk JsonVal.null = false ∧
    createSchemaModel JsonVal.null = { fields := [], passthru := false } :=
  ⟨rfl, (flowise_C7_schema_conversion_degrades_permissively.1 JsonVal.null rfl).1⟩

end Flowise
